import Mathlib

/-!
Verification development for the `gruv_socks` library
(`gruv_socks/gruv_socks.py`): a length-prefixed message framing layer
over TCP sockets, plus an accept-loop server.

The embedding below models the Python source faithfully:

* bytes are `Nat`s (values < 256 where it matters), byte strings are
  `List Nat`;
* the OS socket handle is an abstract `Option Nat` (`none` = the Python
  `self.__sock is None`);
* `struct.pack(">I", n)` / `struct.unpack(">I", b)` become `packBE32` /
  `unpackBE32`, failing (`none`) exactly when the Python raises
  `struct.error` (value out of 32-bit range, buffer not exactly 4 bytes);
* nondeterminism of the OS is an explicit oracle: `send` outcomes are a
  schedule `Nat → Option Nat` (call index ↦ bytes transmitted, `none` =
  `socket.error` raised; a real blocking send transmits at least 1 and at
  most the requested number of bytes, which the model enforces by
  clamping), `recv` outcomes are a schedule `Nat → Option (List Nat)`
  (call index ↦ returned chunk, `none` = exception raised; a real
  `recv(n)` returns at most `n` bytes, enforced by `List.take`), and the
  `select` readiness wait is an oracle `Nat → Bool` from the timeout used
  to readiness;
* the payload-accumulation loop of `read` is given fuel counting recv
  calls; running out of fuel yields the distinguished outcome
  `ReadOut.diverge`, meaning the loop was still running after that many
  iterations (the Python loop can in fact spin forever if `recv` keeps
  returning the empty byte string at EOF);
* every method returns its resulting `SocketState` explicitly, so frame
  properties (which fields a call can change) are provable rather than
  implicit.
-/

namespace GruvSocks

/-- `SOCK_ERROR = b'\x01'`, the error sentinel of the library. -/
def SOCK_ERROR : List Nat := [1]

/-- `SOCK_TIMEOUT = b'\x00'`, the timeout sentinel of the library. -/
def SOCK_TIMEOUT : List Nat := [0]

/-- `struct.pack(">I", n)`: big-endian 4-byte encoding; raises
(`none`) when `n` does not fit an unsigned 32-bit integer. -/
def packBE32 (n : Nat) : Option (List Nat) :=
  if n < 2 ^ 32 then
    some [n / 2 ^ 24 % 256, n / 2 ^ 16 % 256, n / 2 ^ 8 % 256, n % 256]
  else
    none

/-- `struct.unpack(">I", b)[0]`: requires the buffer to be exactly 4
bytes, decodes big-endian; raises (`none`) otherwise. -/
def unpackBE32 (b : List Nat) : Option Nat :=
  match b with
  | [b0, b1, b2, b3] => some (b0 * 2 ^ 24 + b1 * 2 ^ 16 + b2 * 2 ^ 8 + b3)
  | _ => none

/-- The state of a `Socket` object: `sock` is `self.__sock` (an abstract
handle id, `none` when disconnected), `timeout` and `debug` are the
constructor fields. -/
structure SocketState where
  sock : Option Nat
  timeout : Nat
  debug : Bool
deriving DecidableEq, Repr

/-- Outcome of `Socket.read`: `ret ok data` is the Python return tuple
`(ok, data)`; `diverge` records that the receive loop was still running
when the observation fuel ran out. -/
inductive ReadOut where
  | ret (ok : Bool) (data : List Nat) : ReadOut
  | diverge : ReadOut
deriving DecidableEq, Repr

/-- `Socket.connect(host, port)`. The Python assigns
`self.__sock = socket()` and only then attempts the TCP connection
inside the same `try`; on failure (`connectOk = false`: resolution
failure, refused connection, timeout) the `except` branch returns
`False` but never clears `self.__sock`, so the fresh unconnected handle
stays in place. `fresh` is the handle id of the newly created socket. -/
def Socket.connect (st : SocketState) (fresh : Nat) (connectOk : Bool) :
    Bool × SocketState :=
  match st.sock with
  | some _ => (false, st)
  | none => (connectOk, { st with sock := some fresh })

/-- The send loop of `Socket.write`:
`while sent < length: sent += self.__sock.send(data[sent:])`, where
`length = len(data)` was computed BEFORE the 4-byte prefix was
prepended, while the buffer being sent is the framed buffer of
`length + 4` bytes. `sched i` is what the `i`-th send call does:
`none` = raises, `some k` = transmits `k` bytes (clamped to the valid
range `1 ≤ k ≤ length + 4 - sent` of a blocking send on the nonempty
remainder `data[sent:]`). Returns the total bytes transmitted and
whether the loop exited normally (Python `return True`). -/
def sendLoop (sched : Nat → Option Nat) (length : Nat) (i sent : Nat) :
    Nat × Bool :=
  if _h : sent < length then
    match sched i with
    | none => (sent, false)
    | some k => sendLoop sched length (i + 1) (sent + min (max k 1) (length + 4 - sent))
  else
    (sent, true)
termination_by length - sent
decreasing_by
  have h1 : 1 ≤ min (max k 1) (length + 4 - sent) := by
    refine le_min (le_max_right k 1) (by omega)
  omega

/-- `Socket.write(data)`. Returns
`(status returned, bytes actually placed on the wire, resulting state)`.
Mirrors the source: fail fast when not connected; `length = len(data)`;
`data = pack(">I", length) + data` (a `struct.error` here is caught and
returns `False` before any send); then the send loop above. The bytes
on the wire are the prefix of the framed buffer covered by the sends
performed, i.e. `frame.take sent`. Only the raw-bytes entry point is
modelled (`str` input is encoded to bytes first and is then identical). -/
def Socket.write (st : SocketState) (data : List Nat)
    (sched : Nat → Option Nat) : Bool × List Nat × SocketState :=
  match st.sock with
  | none => (false, [], st)
  | some _ =>
    match packBE32 data.length with
    | none => (false, [], st)
    | some hdr =>
      let frame := hdr ++ data
      let out := sendLoop sched data.length 0 0
      (out.2, frame.take out.1, st)

/-- `Socket.__add__(x)`: literally `return self.write(x)`. -/
def Socket.add (st : SocketState) (x : List Nat)
    (sched : Nat → Option Nat) : Bool × List Nat × SocketState :=
  Socket.write st x sched

/-- The payload-accumulation loop of `Socket.read`:
`while data_length < message_length: buffer = recv(message_length - data_length); ...`.
`recv i` is the `i`-th recv call's outcome (`none` = exception raised,
caught and turned into `(False, SOCK_ERROR)`); a returned chunk is
clamped by `List.take` to the requested count, as a real `recv(n)`
returns at most `n` bytes. `fuel` bounds the number of loop iterations
observed; exhausting it yields `ReadOut.diverge`. -/
def recvLoop (recv : Nat → Option (List Nat)) (msgLen : Nat) :
    Nat → Nat → Nat → List Nat → ReadOut
  | 0, _, dataLen, acc =>
    if dataLen < msgLen then .diverge else .ret true acc
  | fuel + 1, i, dataLen, acc =>
    if dataLen < msgLen then
      match recv i with
      | none => .ret false SOCK_ERROR
      | some chunk =>
        recvLoop recv msgLen fuel (i + 1)
          (dataLen + (chunk.take (msgLen - dataLen)).length)
          (acc ++ chunk.take (msgLen - dataLen))
    else
      .ret true acc

/-- `Socket.read(timeout_override)`. Mirrors the source in order:
not connected returns `(False, SOCK_TIMEOUT)`; the effective timeout is
`timeout_override` if nonzero else `self.timeout`; a failed `select`
readiness wait returns `(False, b'\x00')`; `recv(4)` (call index 0,
clamped to at most 4 bytes) feeds `unpack(">I", ·)`, whose failure —
exception raised or short buffer — returns `(False, SOCK_ERROR)`; then
the accumulation loop (recv call indices 1, 2, …) runs, and normal exit
returns `(True, b''.join(fragments))`. The resulting state is returned
explicitly; the method never assigns `self.__sock`. -/
def Socket.read (st : SocketState) (selectReady : Nat → Bool)
    (recv : Nat → Option (List Nat)) (fuel : Nat)
    (timeoutOverride : Nat) : ReadOut × SocketState :=
  match st.sock with
  | none => (.ret false SOCK_TIMEOUT, st)
  | some _ =>
    if selectReady (if timeoutOverride = 0 then st.timeout else timeoutOverride) = false then
      (.ret false [0], st)
    else
      match recv 0 with
      | none => (.ret false SOCK_ERROR, st)
      | some chunk =>
        match unpackBE32 (chunk.take 4) with
        | none => (.ret false SOCK_ERROR, st)
        | some msgLen => (recvLoop recv msgLen fuel 1 0 [], st)

/-- `Socket.disconnect()`: if `self.__sock is None` return immediately;
otherwise shutdown (any error suppressed), close (any error suppressed),
and in the `finally` set `self.__sock = None` unconditionally. The two
booleans say whether shutdown resp. close raised; they cannot influence
the result. -/
def Socket.disconnect (st : SocketState)
    (_shutdownRaises _closeRaises : Bool) : SocketState :=
  match st.sock with
  | none => st
  | some _ => { st with sock := none }

/-- The state of a `ServerBase` object: constructor fields `debug`,
`running`, and `__listener` (abstract handle id, `none` initially). -/
structure ServerState where
  debug : Bool
  running : Bool
  listener : Option Nat
deriving DecidableEq, Repr

/-- `ServerBase.start(callback, port, address, blocking)` as a state
transition, returning the resulting state and the raised exception
message, if any. The source raises
`Exception("server is already listening")` before touching any field
when `self.__listener is not None`; otherwise it installs a fresh
listener handle and sets `running = True` (the accept-loop thread spawn
has no effect on these fields). -/
def ServerBase.start (st : ServerState) (fresh : Nat) :
    ServerState × Option String :=
  match st.listener with
  | some _ => (st, some "server is already listening")
  | none => ({ st with listener := some fresh, running := true }, none)

end GruvSocks

namespace GruvSocks

/-- C1: the round-trip claim fails on the code, at the empty payload the
claim itself singles out. `write(b"")` computes `length = 0`, so the
send loop `while sent < length` never runs: `write` returns `True`
having placed zero bytes (not even the 4-byte prefix) on the wire, for
every send schedule. The peer therefore never becomes readable and its
`read` yields `(False, SOCK_TIMEOUT)`, not `(True, b"")`. -/
theorem empty_payload_roundtrip_fails :
    Socket.write ⟨some 1, 60, false⟩ [] (fun _ => some 1) =
      (true, [], ⟨some 1, 60, false⟩) ∧
    Socket.read ⟨some 2, 60, false⟩ (fun _ => false) (fun _ => none) 5 0 =
      (.ret false SOCK_TIMEOUT, ⟨some 2, 60, false⟩) := by
  constructor
  · simp [Socket.write, packBE32, sendLoop]
  · simp [Socket.read, SOCK_TIMEOUT]

/-- C2: the claim that `write` returns `true` only after all
`len(data)+4` framed bytes were sent fails: the loop bound is
`len(data)`, computed before the prefix was prepended. With payload
`[42]` and a send schedule transmitting 1 byte per call, the loop stops
after 1 of the 5 framed bytes and `write` still returns `true`. -/
theorem write_partial_send_claims_success :
    Socket.write ⟨some 1, 60, false⟩ [42] (fun _ => some 1) =
      (true, [0], ⟨some 1, 60, false⟩) ∧
    ([0] : List Nat).length < ([42] : List Nat).length + 4 := by
  constructor
  · simp [Socket.write, packBE32, sendLoop]
  · decide

/-- C3: the claim that a failed `connect` leaves the object Disconnected
(handle absent) and a later `connect` can succeed fails on the code:
`self.__sock = socket()` happens before the connection attempt, and the
`except` branch never clears it. After a failed connect the handle holds
the fresh unconnected socket, and the next `connect` — even one that
would succeed — returns `false` at the "already connected" guard. -/
theorem connect_fail_blocks_reconnect :
    Socket.connect ⟨none, 60, false⟩ 7 false =
      (false, ⟨some 7, 60, false⟩) ∧
    (Socket.connect ⟨some 7, 60, false⟩ 8 true).1 = false := by
  constructor
  · rfl
  · rfl

/-- Helper: the payload-accumulation loop can only report failure with
the `SOCK_ERROR` sentinel (the only `ret false` in its body). -/
theorem recvLoop_ret_false (recv : Nat → Option (List Nat)) (msgLen : Nat) :
    ∀ fuel i dataLen acc d,
      recvLoop recv msgLen fuel i dataLen acc = .ret false d →
      d = SOCK_ERROR := by
  intro fuel
  induction fuel with
  | zero =>
    intro i dataLen acc d h
    simp only [recvLoop] at h
    split at h <;> simp_all
  | succ n ih =>
    intro i dataLen acc d h
    simp only [recvLoop] at h
    split at h
    · cases hr : recv i with
      | none => rw [hr] at h; simp_all
      | some chunk => rw [hr] at h; exact ih _ _ _ _ h
    · simp_all

/-- Helper: whenever the payload-accumulation loop exits normally, the
accumulated payload has exactly the declared length. Invariant: the
accumulator length equals `dataLen` and never exceeds `msgLen`, because
each chunk is clamped to the remaining byte count. -/
theorem recvLoop_ret_true (recv : Nat → Option (List Nat)) (msgLen : Nat) :
    ∀ fuel i dataLen acc payload, acc.length = dataLen → dataLen ≤ msgLen →
      recvLoop recv msgLen fuel i dataLen acc = .ret true payload →
      payload.length = msgLen := by
  intro fuel
  induction fuel with
  | zero =>
    intro i dataLen acc payload hacc hle h
    simp only [recvLoop] at h
    split at h
    · simp_all
    · cases h
      omega
  | succ n ih =>
    intro i dataLen acc payload hacc hle h
    simp only [recvLoop] at h
    split at h
    · rename_i hlt
      cases hr : recv i with
      | none => rw [hr] at h; simp_all
      | some chunk =>
        rw [hr] at h
        refine ih _ _ _ _ ?_ ?_ h
        · simp [hacc]
        · have : (chunk.take (msgLen - dataLen)).length ≤ msgLen - dataLen := by
            simp [List.length_take]
          omega
    · cases h
      omega

/-- C4 (corrected claim refuted as stated): `read` on a *not connected*
socket returns `(False, SOCK_TIMEOUT)` — the timeout sentinel `0x00`,
not the `ERROR_SENTINEL` `0x01` the claim asserts for that case. -/
theorem read_not_connected_gives_timeout_sentinel :
    Socket.read ⟨none, 60, false⟩ (fun _ => true) (fun _ => some []) 5 0 =
      (.ret false SOCK_TIMEOUT, ⟨none, 60, false⟩) ∧
    SOCK_TIMEOUT ≠ SOCK_ERROR := by
  constructor
  · rfl
  · decide

/-- C4 (amended): the failure taxonomy of `read` as the code implements
it. Not connected returns `(False, SOCK_TIMEOUT)`; a failed readiness
wait returns `(False, SOCK_TIMEOUT)` (the literal `b'\x00'`); a raising
header `recv` returns `(False, SOCK_ERROR)`; a length prefix that fails
to decode returns `(False, SOCK_ERROR)`; and every `False`-flagged
result of `read` carries one of the two one-byte sentinels. -/
theorem read_failure_sentinel_taxonomy (st : SocketState)
    (selectReady : Nat → Bool) (recv : Nat → Option (List Nat))
    (fuel t : Nat) :
    (st.sock = none →
      Socket.read st selectReady recv fuel t = (.ret false SOCK_TIMEOUT, st)) ∧
    (st.sock ≠ none →
      selectReady (if t = 0 then st.timeout else t) = false →
      Socket.read st selectReady recv fuel t = (.ret false SOCK_TIMEOUT, st)) ∧
    (st.sock ≠ none →
      selectReady (if t = 0 then st.timeout else t) = true →
      recv 0 = none →
      Socket.read st selectReady recv fuel t = (.ret false SOCK_ERROR, st)) ∧
    (∀ c, st.sock ≠ none →
      selectReady (if t = 0 then st.timeout else t) = true →
      recv 0 = some c → unpackBE32 (c.take 4) = none →
      Socket.read st selectReady recv fuel t = (.ret false SOCK_ERROR, st)) ∧
    (∀ ok d st', Socket.read st selectReady recv fuel t = (.ret ok d, st') →
      ok = false → d = SOCK_TIMEOUT ∨ d = SOCK_ERROR) := by
  refine ⟨?_, ?_, ?_, ?_, ?_⟩
  · intro h
    simp [Socket.read, h]
  · intro hne hs
    cases hsock : st.sock with
    | none => exact absurd hsock hne
    | some v =>
      simp only [Socket.read, hsock]
      rw [hs]
      simp [SOCK_TIMEOUT]
  · intro hne hs hr
    cases hsock : st.sock with
    | none => exact absurd hsock hne
    | some v =>
      simp only [Socket.read, hsock]
      rw [hs]
      simp [hr]
  · intro c hne hs hr hu
    cases hsock : st.sock with
    | none => exact absurd hsock hne
    | some v =>
      simp only [Socket.read, hsock]
      rw [hs]
      simp [hr, hu]
  · intro ok d st' h hok
    subst hok
    cases hsock : st.sock with
    | none =>
      simp only [Socket.read, hsock] at h
      cases h
      exact Or.inl rfl
    | some v =>
      simp only [Socket.read, hsock] at h
      by_cases hs : selectReady (if t = 0 then st.timeout else t) = false
      · rw [if_pos hs] at h
        cases h
        exact Or.inl rfl
      · rw [if_neg hs] at h
        cases hr : recv 0 with
        | none =>
          simp only [hr] at h
          cases h
          exact Or.inr rfl
        | some chunk =>
          simp only [hr] at h
          cases hu : unpackBE32 (chunk.take 4) with
          | none =>
            simp only [hu] at h
            cases h
            exact Or.inr rfl
          | some msgLen =>
            simp only [hu] at h
            have hl : recvLoop recv msgLen fuel 1 0 [] = .ret false d :=
              congrArg Prod.fst h
            exact Or.inr (recvLoop_ret_false recv msgLen fuel 1 0 [] d hl)

/-- C4 witness: the amended taxonomy applied at a concrete disconnected
socket. -/
theorem read_failure_sentinel_taxonomy_witness :
    Socket.read ⟨none, 60, false⟩ (fun _ => false) (fun _ => none) 3 0 =
      (.ret false SOCK_TIMEOUT, ⟨none, 60, false⟩) :=
  (read_failure_sentinel_taxonomy ⟨none, 60, false⟩ (fun _ => false)
    (fun _ => none) 3 0).1 rfl

/-- C5: whenever `read` returns with flag `true`, the header was
obtained from the first `recv` call, its first 4 bytes decoded as a
big-endian unsigned 32-bit length, and the returned payload has exactly
that length — `read` never returns a partial payload as a success. -/
theorem read_success_complete (st : SocketState) (selectReady : Nat → Bool)
    (recv : Nat → Option (List Nat)) (fuel t : Nat) (payload : List Nat)
    (st' : SocketState)
    (h : Socket.read st selectReady recv fuel t = (.ret true payload, st')) :
    ∃ c msgLen, recv 0 = some c ∧ unpackBE32 (c.take 4) = some msgLen ∧
      payload.length = msgLen := by
  cases hsock : st.sock with
  | none =>
    simp only [Socket.read, hsock] at h
    cases h
  | some v =>
    simp only [Socket.read, hsock] at h
    by_cases hs : selectReady (if t = 0 then st.timeout else t) = false
    · rw [if_pos hs] at h
      cases h
    · rw [if_neg hs] at h
      cases hr : recv 0 with
      | none =>
        simp only [hr] at h
        cases h
      | some chunk =>
        simp only [hr] at h
        cases hu : unpackBE32 (chunk.take 4) with
        | none =>
          simp only [hu] at h
          cases h
        | some msgLen =>
          simp only [hu] at h
          have hloop : recvLoop recv msgLen fuel 1 0 [] = .ret true payload :=
            congrArg Prod.fst h
          exact ⟨chunk, msgLen, rfl, hu,
            recvLoop_ret_true recv msgLen fuel 1 0 [] payload rfl
              (Nat.zero_le _) hloop⟩

/-- C5 witness: a message of declared length 2 delivered in two 1-byte
receive chunks is reassembled completely. -/
theorem read_success_complete_witness :
    ∃ c msgLen,
      (fun i => if i = 0 then some ([0, 0, 0, 2] : List Nat) else some [7]) 0 =
        some c ∧
      unpackBE32 (c.take 4) = some msgLen ∧
      ([7, 7] : List Nat).length = msgLen :=
  read_success_complete ⟨some 1, 60, false⟩ (fun _ => true)
    (fun i => if i = 0 then some [0, 0, 0, 2] else some [7]) 5 0 [7, 7]
    ⟨some 1, 60, false⟩ (by decide)

/-- C6: calling `start` while a listener handle is present raises
`Exception("server is already listening")` and leaves the whole server
state — listener handle and `running` flag included — unchanged. -/
theorem start_already_listening_raises (st : ServerState) (fresh h : Nat)
    (hl : st.listener = some h) :
    ServerBase.start st fresh = (st, some "server is already listening") := by
  obtain ⟨debug, running, listener⟩ := st
  cases listener with
  | none => cases hl
  | some v => rfl

/-- C6 witness: `start` on a concrete listening server. -/
theorem start_already_listening_raises_witness :
    ServerBase.start ⟨false, true, some 3⟩ 9 =
      (⟨false, true, some 3⟩, some "server is already listening") :=
  start_already_listening_raises ⟨false, true, some 3⟩ 9 3 rfl

/-- C7: `disconnect` raises nothing (it is a total function of the
state, whatever shutdown/close did), always leaves the handle cleared to
`none`, and is idempotent: a second call is a no-op returning the same
Disconnected state. -/
theorem disconnect_idempotent (st : SocketState) (s1 c1 s2 c2 : Bool) :
    (Socket.disconnect st s1 c1).sock = none ∧
    Socket.disconnect (Socket.disconnect st s1 c1) s2 c2 =
      Socket.disconnect st s1 c1 := by
  obtain ⟨sock, timeout, debug⟩ := st
  cases sock <;> simp [Socket.disconnect]

/-- C8: neither `read` nor `write` ever assigns the socket handle — on
every path, failing ones included, the resulting state keeps the same
`sock` field, so a connected object is still connected afterward. -/
theorem read_write_preserve_handle (st : SocketState) (data : List Nat)
    (sched : Nat → Option Nat) (selectReady : Nat → Bool)
    (recv : Nat → Option (List Nat)) (fuel t : Nat) :
    ((Socket.write st data sched).2.2).sock = st.sock ∧
    ((Socket.read st selectReady recv fuel t).2).sock = st.sock := by
  refine ⟨?_, ?_⟩
  · simp only [Socket.write]
    repeat' split
    all_goals rfl
  · simp only [Socket.read]
    repeat' split
    all_goals rfl

/-- C9: a payload longer than `2^32 - 1` bytes makes
`pack(">I", length)` raise `struct.error` before any send call: `write`
returns `false` with nothing placed on the wire. -/
theorem write_oversize_sends_nothing (st : SocketState) (h : Nat)
    (data : List Nat) (sched : Nat → Option Nat) (hs : st.sock = some h)
    (hlen : 2 ^ 32 - 1 < data.length) :
    Socket.write st data sched = (false, [], st) := by
  have hp : packBE32 data.length = none := by
    unfold packBE32
    rw [if_neg]
    omega
  simp [Socket.write, hs, hp]

/-- C9 witness: a `2^32`-byte payload is rejected with nothing sent. -/
theorem write_oversize_sends_nothing_witness :
    Socket.write ⟨some 0, 60, false⟩ (List.replicate (2 ^ 32) 0)
      (fun _ => some 1) = (false, [], ⟨some 0, 60, false⟩) :=
  write_oversize_sends_nothing ⟨some 0, 60, false⟩ 0
    (List.replicate (2 ^ 32) 0) (fun _ => some 1) rfl
    (by simp only [List.length_replicate]; decide)

/-- C10: `Socket.__add__(x)` is literally `self.write(x)`: same result
(status, wire bytes, state) on every input and schedule. -/
theorem add_eq_write (st : SocketState) (x : List Nat)
    (sched : Nat → Option Nat) :
    Socket.add st x sched = Socket.write st x sched := rfl

end GruvSocks
